import Mathlib

/-!
Verification of the YouTube video summarizer pipeline (app.py and
flask-backend.py) against its natural-language specification.

The repository code is a thin pipeline around three external network
services (captioning, generative text, speech synthesis) plus the Python
standard library urlparse.  Those boundaries are modelled as oracle
parameters: urlparse as a function producing a ParsedUrl record of the
fields the code reads (hostname, path, query), and each external service
as a function returning Except, where the error constructor stands for a
raised exception.  Machine-internal behaviour of the repository itself
(URL query parsing via parse_qs, sentinel strings, prompt templating,
response envelopes, dispatch and error mapping in process_video) is
embedded directly from the source.  Percent-decoding and plus-decoding
inside parse_qs are not modelled (no claim depends on them), and
Python str.lower and str.strip are modelled over their ASCII behaviour.
-/

set_option autoImplicit false
set_option maxRecDepth 100000

namespace YtSummarizer

/-- Result of Python urlparse(url) restricted to the three fields the code
reads: hostname (None when absent, lowercased by urlparse), path and the
raw query string. -/
structure ParsedUrl where
  hostname : Option String
  path : String
  query : String
  deriving DecidableEq

/-- Python s.split(sep) for a one-character separator and no maxsplit, the
form used by parse_qs on the query string with separator amp. -/
def pySplit (sep : Char) : List Char → List (List Char)
  | [] => [[]]
  | c :: cs =>
    if c = sep then
      [] :: pySplit sep cs
    else
      match pySplit sep cs with
      | [] => [[c]]
      | f :: rest => (c :: f) :: rest

/-- Python s.split(sep, 1): split on the first occurrence of the separator
only, the form parse_qsl uses on each name=value field. -/
def pySplitFirst (sep : Char) : List Char → List (List Char)
  | [] => [[]]
  | c :: cs =>
    if c = sep then
      [[], cs]
    else
      match pySplitFirst sep cs with
      | [] => [[c]]
      | f :: rest => (c :: f) :: rest

/-- Python urllib.parse.parse_qsl with default arguments: split the query
on amp, drop empty fields, drop fields without an equals sign, and drop
blank values (keep_blank_values is False).  Percent-decoding is omitted. -/
def parse_qsl (query : List Char) : List (List Char × List Char) :=
  (pySplit '&' query).filterMap fun nv =>
    if nv = [] then none
    else
      match pySplitFirst '=' nv with
      | [name, value] => if value = [] then none else some (name, value)
      | _ => none

/-- The expression parse_qs(query).get(v, [None])[0] from get_video_id:
the first value whose key is v, if any. -/
def parse_qs_get_v (query : String) : Option String :=
  (List.find? (fun kv => kv.1 = ['v']) (parse_qsl query.data)).map fun kv => String.mk kv.2

/-- Embeds get_video_id from app.py lines 56-86: youtube.com and
www.youtube.com carry the identifier in query parameter v; youtu.be
carries it as the path with the leading slash removed (path[1:]); any
other hostname yields None. -/
def get_video_id (u : ParsedUrl) : Option String :=
  if u.hostname = some "www.youtube.com" ∨ u.hostname = some "youtube.com" then
    parse_qs_get_v u.query
  else if u.hostname = some "youtu.be" then
    some (String.mk (u.path.data.drop 1))
  else
    none

/-- One caption segment as returned by the captioning service.  The source
also carries float fields start and duration, which the code never reads;
only the text field is modelled. -/
structure Segment where
  text : String
  deriving DecidableEq

/-- Embeds get_transcript from app.py lines 93-129.  The external call
api.fetch(video_id, languages) is the Except argument: ok carries the
ordered segment list, error stands for any raised exception.  On success
the segment texts are joined with single spaces; on any exception the
function returns None. -/
def get_transcript (fetchResult : Except String (List Segment)) : Option String :=
  match fetchResult with
  | Except.ok transcript_data =>
      some (String.intercalate " " (transcript_data.map Segment.text))
  | Except.error _ => none

/-- Fixed part of the summary prompt before the transcript, from app.py
lines 153-165 (the f-string text before the substitution). -/
def summary_prompt_intro : String := "
    You are an expert at creating detailed, easy-to-read summaries from video transcripts.
    Your task is to analyze the following transcript and create a comprehensive summary in a point-by-point format.

    Please follow these instructions:
    1.  Identify all the main topics, arguments, and key events discussed in the video.
    2.  For each topic or event, create a clear and descriptive bullet point.
    3.  Explain each point in detail, ensuring that the summary captures the full context and all significant information.
    4.  The goal is to provide a complete overview that allows someone to understand the video\x27s content without having to watch it.

    Here is the transcript:
    ---
    "

/-- Fixed part of the summary prompt after the transcript, from app.py
lines 165-167. -/
def summary_prompt_outro : String := "
    ---
    "

/-- The summary prompt: the f-string of app.py lines 153-167 with the
transcript substituted verbatim. -/
def summary_prompt (text : String) : String :=
  summary_prompt_intro ++ text ++ summary_prompt_outro

/-- Fixed part of the notes prompt before the transcript, from app.py
lines 200-211. -/
def notes_prompt_intro : String := "
    You are a meticulous note-taker. Your task is to convert the following video transcript into a structured, hierarchical set of notes.

    Please follow these instructions:
    1.  Identify the main sections or topics of the video. Use these as top-level headings.
    2.  Under each heading, use bullet points or numbered lists to capture key details, facts, examples, and arguments.
    3.  Use sub-bullets for finer details where necessary to create a clear structure.
    4.  Focus on capturing information accurately and concisely. The goal is to create a comprehensive study guide from the video.

    Here is the transcript:
    ---
    "

/-- Fixed part of the notes prompt after the transcript, from app.py
lines 211-213. -/
def notes_prompt_outro : String := "
    ---
    "

/-- The notes prompt: the f-string of app.py lines 200-213 with the
transcript substituted verbatim. -/
def notes_prompt (text : String) : String :=
  notes_prompt_intro ++ text ++ notes_prompt_outro

/-- Content kinds handled by the generator. -/
inductive ContentKind where
  | summary
  | notes
  deriving DecidableEq

/-- Prompt construction by kind, shared shape of generate_summary and
generate_notes. -/
def prompt_for : ContentKind → String → String
  | ContentKind.summary, text => summary_prompt text
  | ContentKind.notes, text => notes_prompt text

/-- Python whitespace for str.strip with no argument, over ASCII. -/
def pyIsSpace (c : Char) : Bool :=
  c = ' ' ∨ c = '\t' ∨ c = '\n' ∨ c = '\r' ∨ c = '\x0b' ∨ c = '\x0c'

/-- Models Python str.strip(): remove leading and trailing whitespace. -/
def pyStrip (s : String) : String :=
  String.mk (((s.data.dropWhile pyIsSpace).reverse.dropWhile pyIsSpace).reverse)

/-- Sentinel string returned by generate_summary on failure, app.py
line 181. -/
def SUMMARY_FAILURE : String := "Summary generation failed. Please try again."

/-- Sentinel string returned by generate_notes on failure, app.py
line 227. -/
def NOTES_FAILURE : String := "Notes generation failed. Please try again."

/-- Embeds generate_summary from app.py lines 136-181.  The generative
service is the oracle gen from prompt to Except: ok carries response.text,
error stands for any raised exception.  On success the response text is
stripped; on any exception the sentinel failure string is returned. -/
def generate_summary (gen : String → Except String String) (text : String) : String :=
  match gen (summary_prompt text) with
  | Except.ok response => pyStrip response
  | Except.error _ => SUMMARY_FAILURE

/-- Embeds generate_notes from app.py lines 183-227, analogous to
generate_summary with the notes prompt and notes sentinel. -/
def generate_notes (gen : String → Except String String) (text : String) : String :=
  match gen (notes_prompt text) with
  | Except.ok response => pyStrip response
  | Except.error _ => NOTES_FAILURE

/-- Writing a file into the audio directory, modelled as a list of
filenames; an existing file of the same name is overwritten. -/
def writeFile (filename : String) (files : List String) : List String :=
  if filename ∈ files then files else filename :: files

/-- Embeds text_to_audio from app.py lines 234-268.  The speech service
and the save are the oracle tts on (text, filename): ok means the file was
saved, error stands for any raised exception.  Returns the filename on
success and None on failure, together with the resulting directory
contents. -/
def text_to_audio (tts : String → String → Except String Unit)
    (summary : String) (filename : String) (files : List String) :
    Option String × List String :=
  match tts summary filename with
  | Except.ok _ => (some filename, writeFile filename files)
  | Except.error _ => (none, files)

/-- JSON payload of POST /api/process, restricted to the three fields the
endpoint reads.  A field is None when absent from the JSON object. -/
structure Payload where
  url : Option String
  operation : Option String
  audio_filename : Option String
  deriving DecidableEq

/-- Dictionary-style field lookup on the payload. -/
def Payload.get (data : Payload) (field : String) : Option String :=
  if field = "url" then data.url
  else if field = "operation" then data.operation
  else if field = "audio_filename" then data.audio_filename
  else none

/-- Python truthiness of field in data and data[field]: present and not
the empty string. -/
def fieldTruthy : Option String → Bool
  | some s => s ≠ ""
  | none => false

/-- Embeds validate_request_data from flask-backend.py lines 78-83:
collect the required fields that are absent or falsy; valid iff none. -/
def validate_request_data (data : Payload) (required_fields : List String) :
    Bool × Option String :=
  let missing_fields := required_fields.filter fun field => ¬ fieldTruthy (data.get field)
  if missing_fields = [] then (true, none)
  else (false, some ("Missing required fields: " ++ String.intercalate ", " missing_fields))

/-- Models Python str.lower over its ASCII behaviour, field by field the
mapping of each character to lowercase. -/
def pyLower (s : String) : String := String.mk (s.data.map Char.toLower)

/-- External calls made while handling one request, in order. -/
inductive Call where
  | fetchTranscript (video_id : String)
  | generate (prompt : String)
  | tts (text : String) (filename : String)
  deriving DecidableEq

/-- Data part of a success envelope; only the fields that carry pipeline
content are modelled (timestamps, lengths and timings are derived
values). -/
inductive RespData where
  | transcriptData (video_id : String) (transcript : String)
  | summaryData (video_id : String) (summary : String)
  | notesData (video_id : String) (notes : String)
  | audioData (video_id : String) (audio_filename : String) (summary : String)
  deriving DecidableEq

/-- Response envelope of the endpoint: a success envelope (HTTP 200 via
jsonify) or an error envelope carrying message, error_code and HTTP
status, per create_success_response and create_error_response. -/
inductive Response where
  | success (message : String) (data : RespData)
  | error (message : String) (error_code : String) (status : Nat)
  deriving DecidableEq

/-- Oracles for the boundaries of one request: urlparse, the captioning
fetch keyed by video id, the generative service keyed by prompt, the
speech service keyed by text and filename, and the current contents of
the audio directory. -/
structure Env where
  parse : String → ParsedUrl
  fetch : String → Except String (List Segment)
  gen : String → Except String String
  tts : String → String → Except String Unit
  files : List String

/-- The valid_operations list of flask-backend.py line 150. -/
def valid_operations : List String := ["transcript", "summary", "notes", "audio"]

/-- The audio directory name of flask-backend.py line 50. -/
def AUDIO_DIR : String := "audio_files"

/-- Embeds flask-backend.py process_video lines 149-246: the part after
payload validation, taking the url, the already-lowercased operation and
the optional audio_filename.  Returns the response envelope, the list of
external calls made, and the audio directory contents afterwards. -/
def process_valid (env : Env) (url : String) (operation : String)
    (audio_filename : Option String) : Response × List Call × List String :=
  if operation ∈ valid_operations then
    match get_video_id (env.parse url) with
    | none =>
      (Response.error "Invalid YouTube URL format" "INVALID_URL" 400, [], env.files)
    | some video_id =>
      if video_id = "" then
        (Response.error "Invalid YouTube URL format" "INVALID_URL" 400, [], env.files)
      else
        match get_transcript (env.fetch video_id) with
        | none =>
          (Response.error "Could not fetch transcript. Video may not have captions or may be restricted"
            "TRANSCRIPT_UNAVAILABLE" 404, [Call.fetchTranscript video_id], env.files)
        | some transcript =>
          if transcript = "" then
            (Response.error "Could not fetch transcript. Video may not have captions or may be restricted"
              "TRANSCRIPT_UNAVAILABLE" 404, [Call.fetchTranscript video_id], env.files)
          else if operation = "transcript" then
            (Response.success "Transcript extracted successfully"
              (RespData.transcriptData video_id transcript),
             [Call.fetchTranscript video_id], env.files)
          else if operation = "summary" then
            let summary := generate_summary env.gen transcript
            if summary = "Sorry, couldn\x27t make summary" then
              (Response.error "Summary generation failed" "SUMMARY_GENERATION_FAILED" 500,
               [Call.fetchTranscript video_id, Call.generate (summary_prompt transcript)],
               env.files)
            else
              (Response.success "Summary generated successfully"
                (RespData.summaryData video_id summary),
               [Call.fetchTranscript video_id, Call.generate (summary_prompt transcript)],
               env.files)
          else if operation = "notes" then
            let notes := generate_notes env.gen transcript
            if notes = "Sorry, couldn\x27t make notes" then
              (Response.error "Notes generation failed" "NOTES_GENERATION_FAILED" 500,
               [Call.fetchTranscript video_id, Call.generate (notes_prompt transcript)],
               env.files)
            else
              (Response.success "Notes generated successfully"
                (RespData.notesData video_id notes),
               [Call.fetchTranscript video_id, Call.generate (notes_prompt transcript)],
               env.files)
          else
            let summary := generate_summary env.gen transcript
            if summary = "Sorry, couldn\x27t make summary" then
              (Response.error "Summary generation failed" "SUMMARY_GENERATION_FAILED" 500,
               [Call.fetchTranscript video_id, Call.generate (summary_prompt transcript)],
               env.files)
            else
              let audio_file :=
                match audio_filename with
                | some f => if f = "" then "summary_" ++ video_id ++ ".mp3" else f ++ ".mp3"
                | none => "summary_" ++ video_id ++ ".mp3"
              let audio_path := AUDIO_DIR ++ "/" ++ audio_file
              match text_to_audio env.tts summary audio_path env.files with
              | (some _, files2) =>
                (Response.success "Audio summary generated successfully"
                  (RespData.audioData video_id audio_file summary),
                 [Call.fetchTranscript video_id, Call.generate (summary_prompt transcript),
                  Call.tts summary audio_path], files2)
              | (none, files2) =>
                (Response.error "Failed to generate audio file" "AUDIO_GENERATION_FAILED" 500,
                 [Call.fetchTranscript video_id, Call.generate (summary_prompt transcript),
                  Call.tts summary audio_path], files2)
  else
    (Response.error "Invalid operation. Must be one of: transcript, summary, notes, audio"
      "INVALID_OPERATION" 400, [], env.files)

/-- Embeds the POST /api/process handler process_video of flask-backend.py
lines 120-257: missing JSON yields INVALID_REQUEST 400; a failed field
validation yields MISSING_FIELDS 400; otherwise the operation string is
lowercased and handling continues in process_valid. -/
def process_video (env : Env) (data : Option Payload) :
    Response × List Call × List String :=
  match data with
  | none => (Response.error "No JSON data provided" "INVALID_REQUEST" 400, [], env.files)
  | some p =>
    match validate_request_data p ["url", "operation"] with
    | (true, _) =>
      process_valid env (p.url.getD "") (pyLower (p.operation.getD "")) p.audio_filename
    | (false, error_message) =>
      (Response.error (error_message.getD "") "MISSING_FIELDS" 400, [], env.files)

/-! Helper lemmas shared by several claims. -/

theorem mk_data (s : String) : String.mk s.data = s := by
  cases s
  rfl

theorem data_ne_nil_of_ne_empty {s : String} (h : s ≠ "") : s.data ≠ [] := by
  intro hd
  exact h (String.ext hd)

theorem pySplit_of_not_mem (sep : Char) (l : List Char) (h : ∀ c ∈ l, c ≠ sep) :
    pySplit sep l = [l] := by
  induction l with
  | nil => rfl
  | cons c cs ih =>
    have hc : c ≠ sep := h c (by simp)
    have hcs : pySplit sep cs = [cs] := ih fun x hx => h x (by simp [hx])
    simp [pySplit, hc, hcs]

theorem parse_qsl_single_v (id : String) (hne : id ≠ "") (hamp : ∀ c ∈ id.data, c ≠ '&') :
    parse_qsl ('v' :: '=' :: id.data) = [(['v'], id.data)] := by
  have hsplit : pySplit '&' ('v' :: '=' :: id.data) = [('v' :: '=' :: id.data)] := by
    apply pySplit_of_not_mem
    intro c hc
    simp only [List.mem_cons] at hc
    rcases hc with rfl | rfl | hc
    · decide
    · decide
    · exact hamp c hc
  have hfirst : pySplitFirst '=' ('v' :: '=' :: id.data) = [['v'], id.data] := by
    simp [pySplitFirst]
  have hvd : id.data ≠ [] := data_ne_nil_of_ne_empty hne
  simp [parse_qsl, hsplit, hfirst, hvd]

/-- C3: for a youtube.com or www.youtube.com URL whose query carries the
identifier in parameter v, get_video_id returns exactly that identifier;
for a youtu.be URL whose whole path is the identifier, likewise; for any
other host it returns none, and for a youtube.com URL whose parsed query
has no v key it returns none.  The embedding is a total function, so no
input raises. -/
theorem get_video_id_spec (u : ParsedUrl) (id : String) :
    ((u.hostname = some "youtube.com" ∨ u.hostname = some "www.youtube.com") →
      u.query = "v=" ++ id → id ≠ "" → (∀ c ∈ id.data, c ≠ '&') →
      get_video_id u = some id)
    ∧ (u.hostname = some "youtu.be" → u.path = "/" ++ id → get_video_id u = some id)
    ∧ (u.hostname ≠ some "youtube.com" → u.hostname ≠ some "www.youtube.com" →
        u.hostname ≠ some "youtu.be" → get_video_id u = none)
    ∧ ((u.hostname = some "youtube.com" ∨ u.hostname = some "www.youtube.com") →
        (∀ kv ∈ parse_qsl u.query.data, kv.1 ≠ ['v']) → get_video_id u = none) := by
  refine ⟨?_, ?_, ?_, ?_⟩
  · intro hhost hq hne hamp
    have hdata : u.query.data = 'v' :: '=' :: id.data := by
      rw [hq, String.data_append]
      rfl
    have hqsl : parse_qsl u.query.data = [(['v'], id.data)] := by
      rw [hdata]
      exact parse_qsl_single_v id hne hamp
    have hv : parse_qs_get_v u.query = some id := by
      simp [parse_qs_get_v, hqsl, mk_data]
    rcases hhost with h | h <;> simp [get_video_id, h, hv]
  · intro hhost hpath
    have hdata : u.path.data = '/' :: id.data := by
      rw [hpath, String.data_append]
      rfl
    have hbe : u.hostname ≠ some "www.youtube.com" ∧ u.hostname ≠ some "youtube.com" := by
      rw [hhost]
      exact ⟨by simp, by simp⟩
    simp [get_video_id, hhost, hbe.1, hbe.2, hdata, mk_data]
  · intro h1 h2 h3
    simp [get_video_id, h1, h2, h3]
  · intro hhost hnov
    have hfind : List.find? (fun kv => kv.1 = ['v']) (parse_qsl u.query.data) = none :=
      List.find?_eq_none.mpr fun kv hkv => by
        simp only [decide_eq_true_eq]
        exact hnov kv hkv
    have hv : parse_qs_get_v u.query = none := by
      simp [parse_qs_get_v, hfind]
    rcases hhost with h | h <;> simp [get_video_id, h, hv]

theorem get_video_id_spec_witness :
    get_video_id ⟨some "youtube.com", "/watch", "v=dQw4w9WgXcQ"⟩ = some "dQw4w9WgXcQ"
    ∧ get_video_id ⟨some "youtu.be", "/abc12345678", ""⟩ = some "abc12345678"
    ∧ get_video_id ⟨some "vimeo.com", "/123", ""⟩ = none
    ∧ get_video_id ⟨some "youtube.com", "/watch", "t=10"⟩ = none := by
  refine ⟨?_, ?_, ?_, ?_⟩
  · exact (get_video_id_spec ⟨some "youtube.com", "/watch", "v=dQw4w9WgXcQ"⟩
      "dQw4w9WgXcQ").1 (Or.inl rfl) rfl (by decide) (by decide)
  · exact (get_video_id_spec ⟨some "youtu.be", "/abc12345678", ""⟩
      "abc12345678").2.1 rfl rfl
  · exact (get_video_id_spec ⟨some "vimeo.com", "/123", ""⟩ "").2.2.1
      (by simp) (by simp) (by simp)
  · exact (get_video_id_spec ⟨some "youtube.com", "/watch", "t=10"⟩ "").2.2.2
      (Or.inl rfl) (by decide)

/-- C7: get_transcript is a total function of the external fetch outcome:
every raised exception from the captioning service (the error case) is
mapped to none, every success is mapped to some transcript, and the
process endpoint branches on none before invoking generation or audio
synthesis, answering TRANSCRIPT_UNAVAILABLE 404 with no further external
calls. -/
theorem get_transcript_total_on_failure :
    (∀ err : String, get_transcript (Except.error err) = none)
    ∧ (∀ segs : List Segment, ∃ t, get_transcript (Except.ok segs) = some t)
    ∧ (∀ (env : Env) (url operation : String) (audio_filename : Option String) (vid : String),
        operation ∈ valid_operations →
        get_video_id (env.parse url) = some vid →
        vid ≠ "" →
        get_transcript (env.fetch vid) = none →
        process_valid env url operation audio_filename =
          (Response.error "Could not fetch transcript. Video may not have captions or may be restricted"
            "TRANSCRIPT_UNAVAILABLE" 404, [Call.fetchTranscript vid], env.files)) := by
  refine ⟨fun _ => rfl, fun segs => ⟨_, rfl⟩, ?_⟩
  intro env url operation audio_filename vid hop hvid hne hfetch
  simp [process_valid, hop, hvid, hne, hfetch]

theorem get_transcript_total_on_failure_witness :
    process_valid
      ⟨fun _ => ⟨some "youtu.be", "/abc12345678", ""⟩,
        fun _ => Except.error "no captions",
        fun _ => Except.ok "text", fun _ _ => Except.ok (), []⟩
      "https://youtu.be/abc12345678" "summary" none =
      (Response.error "Could not fetch transcript. Video may not have captions or may be restricted"
        "TRANSCRIPT_UNAVAILABLE" 404, [Call.fetchTranscript "abc12345678"], []) := by
  exact get_transcript_total_on_failure.2.2
    ⟨fun _ => ⟨some "youtu.be", "/abc12345678", ""⟩,
      fun _ => Except.error "no captions",
      fun _ => Except.ok "text", fun _ _ => Except.ok (), []⟩
    "https://youtu.be/abc12345678" "summary" none "abc12345678"
    (by decide) (by decide) (by decide) rfl

/-- C8: a successful transcript fetch yields exactly the segment texts in
the order the service returned them, joined into one blob with single
spaces, and swapping two segments changes the result, so the chronological
order is preserved. -/
theorem transcript_concatenation_order :
    (∀ segs : List Segment,
      get_transcript (Except.ok segs) =
        some (String.intercalate " " (segs.map Segment.text)))
    ∧ get_transcript (Except.ok [⟨"hello"⟩, ⟨"world"⟩]) ≠
        get_transcript (Except.ok [⟨"world"⟩, ⟨"hello"⟩]) := by
  exact ⟨fun _ => rfl, by decide⟩

/-- C9: the prompt sent to the generative service is a fixed template per
kind with the transcript substituted verbatim: it decomposes as a fixed
intro and outro depending only on the kind with the transcript in between,
the transcript occurs verbatim as an infix, and equal transcript and kind
give the identical prompt string. -/
theorem prompt_template_fixed :
    (∀ t, prompt_for ContentKind.summary t =
        summary_prompt_intro ++ t ++ summary_prompt_outro)
    ∧ (∀ t, prompt_for ContentKind.notes t =
        notes_prompt_intro ++ t ++ notes_prompt_outro)
    ∧ (∀ (k : ContentKind) (t : String), List.IsInfix t.data (prompt_for k t).data)
    ∧ (∀ (k : ContentKind) (t₁ t₂ : String), t₁ = t₂ → prompt_for k t₁ = prompt_for k t₂) := by
  refine ⟨fun t => rfl, fun t => rfl, ?_, ?_⟩
  · intro k t
    cases k
    · exact ⟨summary_prompt_intro.data, summary_prompt_outro.data, by
        simp [prompt_for, summary_prompt, String.data_append]⟩
    · exact ⟨notes_prompt_intro.data, notes_prompt_outro.data, by
        simp [prompt_for, notes_prompt, String.data_append]⟩
  · intro k t₁ t₂ h
    rw [h]

theorem prompt_template_fixed_witness :
    prompt_for ContentKind.summary "the transcript" =
      prompt_for ContentKind.summary "the transcript" :=
  prompt_template_fixed.2.2.2 ContentKind.summary "the transcript" "the transcript" rfl

theorem process_video_valid_red (env : Env) (p : Payload)
    (hval : (validate_request_data p ["url", "operation"]).1 = true) :
    process_video env (some p) =
      process_valid env (p.url.getD "") (pyLower (p.operation.getD "")) p.audio_filename := by
  rcases hv : validate_request_data p ["url", "operation"] with ⟨b, msg⟩
  rw [hv] at hval
  simp only at hval
  subst hval
  simp [process_video, hv]

theorem process_valid_trace_shape (env : Env) (url operation : String)
    (af : Option String) :
    (process_valid env url operation af).2.1 = [] ∨
    (∃ vid, (process_valid env url operation af).2.1 = [Call.fetchTranscript vid]) ∨
    (∃ vid t, Call.fetchTranscript vid ∈ (process_valid env url operation af).2.1 ∧
      get_transcript (env.fetch vid) = some t ∧ t ≠ "") := by
  by_cases hop : operation ∈ valid_operations
  swap
  · left
    simp [process_valid, hop]
  rcases hvid : get_video_id (env.parse url) with _ | vid
  · left
    simp [process_valid, hop, hvid]
  by_cases hv0 : vid = ""
  · left
    simp [process_valid, hop, hvid, hv0]
  rcases hfetch : get_transcript (env.fetch vid) with _ | t
  · right; left
    exact ⟨vid, by simp [process_valid, hop, hvid, hv0, hfetch]⟩
  by_cases ht0 : t = ""
  · right; left
    exact ⟨vid, by simp [process_valid, hop, hvid, hv0, hfetch, ht0]⟩
  by_cases htr : operation = "transcript"
  · right; left
    exact ⟨vid, by simp [process_valid, valid_operations, hop, hvid, hv0, hfetch, ht0, htr]⟩
  right; right
  refine ⟨vid, t, ?_, hfetch, ht0⟩
  by_cases hsum : operation = "summary"
  · simp [process_valid, valid_operations, hop, hvid, hv0, hfetch, ht0, htr, hsum]
    split <;> simp
  by_cases hnotes : operation = "notes"
  · simp [process_valid, valid_operations, hop, hvid, hv0, hfetch, ht0, htr, hsum, hnotes]
    split <;> simp
  · have haud : operation = "audio" := by
      have hop2 := hop
      simp only [valid_operations, List.mem_cons, List.not_mem_nil, or_false] at hop2
      tauto
    simp [process_valid, valid_operations, hop, hvid, hv0, hfetch, ht0, htr, hsum, hnotes, haud]
    split
    · simp
    · split <;> simp

/-- C5: generation and audio synthesis happen only after a successful,
nonempty transcript fetch, and a request whose URL resolves to no
identifier terminates with INVALID_URL 400 making no external call and
leaving the audio directory unchanged. -/
theorem transcript_before_generation (env : Env) (data : Option Payload) :
    (∀ p : Payload, data = some p →
      (validate_request_data p ["url", "operation"]).1 = true →
      pyLower (p.operation.getD "") ∈ valid_operations →
      get_video_id (env.parse (p.url.getD "")) = none →
      process_video env data =
        (Response.error "Invalid YouTube URL format" "INVALID_URL" 400, [], env.files))
    ∧ (∀ c ∈ (process_video env data).2.1,
        ((∃ prompt, c = Call.generate prompt) ∨ ∃ txt f, c = Call.tts txt f) →
        ∃ vid t, Call.fetchTranscript vid ∈ (process_video env data).2.1 ∧
          get_transcript (env.fetch vid) = some t ∧ t ≠ "") := by
  constructor
  · intro p hp hval hop hvid
    subst hp
    rw [process_video_valid_red env p hval]
    simp [process_valid, hop, hvid]
  · intro c hc hor
    rcases data with _ | p
    · simp [process_video] at hc
    rcases hv : validate_request_data p ["url", "operation"] with ⟨b, msg⟩
    cases b
    · simp [process_video, hv] at hc
    have hval : (validate_request_data p ["url", "operation"]).1 = true := by
      rw [hv]
    rw [process_video_valid_red env p hval] at hc ⊢
    rcases process_valid_trace_shape env (p.url.getD "")
        (pyLower (p.operation.getD "")) p.audio_filename with hsh | ⟨vid, hsh⟩ | ⟨vid, t, hmem, hf, ht⟩
    · rw [hsh] at hc
      simp at hc
    · rw [hsh] at hc
      simp at hc
      rcases hor with ⟨pr, rfl⟩ | ⟨tx, f, rfl⟩ <;> simp at hc
    · exact ⟨vid, t, hmem, hf, ht⟩

theorem transcript_before_generation_witness :
    process_video
      ⟨fun _ => ⟨some "vimeo.com", "/123", ""⟩, fun _ => Except.error "x",
        fun _ => Except.ok "y", fun _ _ => Except.ok (), []⟩
      (some ⟨some "https://vimeo.com/123", some "summary", none⟩) =
      (Response.error "Invalid YouTube URL format" "INVALID_URL" 400, [],
        ([] : List String))
    ∧ ∃ vid t, Call.fetchTranscript vid ∈
        (process_video
          ⟨fun _ => ⟨some "youtu.be", "/abc12345678", ""⟩,
            fun _ => Except.ok [⟨"hello"⟩], fun _ => Except.ok "a summary",
            fun _ _ => Except.ok (), []⟩
          (some ⟨some "https://youtu.be/abc12345678", some "summary", none⟩)).2.1 ∧
        get_transcript
          ((⟨fun _ => ⟨some "youtu.be", "/abc12345678", ""⟩,
            fun _ => Except.ok [⟨"hello"⟩], fun _ => Except.ok "a summary",
            fun _ _ => Except.ok (), []⟩ : Env).fetch vid) = some t ∧ t ≠ "" := by
  constructor
  · exact (transcript_before_generation
      ⟨fun _ => ⟨some "vimeo.com", "/123", ""⟩, fun _ => Except.error "x",
        fun _ => Except.ok "y", fun _ _ => Except.ok (), []⟩
      (some ⟨some "https://vimeo.com/123", some "summary", none⟩)).1
      ⟨some "https://vimeo.com/123", some "summary", none⟩ rfl
      (by decide) (by decide) (by decide)
  · exact (transcript_before_generation
      ⟨fun _ => ⟨some "youtu.be", "/abc12345678", ""⟩,
        fun _ => Except.ok [⟨"hello"⟩], fun _ => Except.ok "a summary",
        fun _ _ => Except.ok (), []⟩
      (some ⟨some "https://youtu.be/abc12345678", some "summary", none⟩)).2
      (Call.generate (summary_prompt "hello")) (by decide)
      (Or.inl ⟨summary_prompt "hello", rfl⟩)

theorem fetch_mem_process_valid (env : Env) (url op : String) (af : Option String)
    (vid : String) (hop : op ∈ valid_operations)
    (hvid : get_video_id (env.parse url) = some vid) (hne : vid ≠ "") :
    Call.fetchTranscript vid ∈ (process_valid env url op af).2.1 := by
  rcases hfetch : get_transcript (env.fetch vid) with _ | t
  · simp [process_valid, hop, hvid, hne, hfetch]
  by_cases ht0 : t = ""
  · simp [process_valid, hop, hvid, hne, hfetch, ht0]
  by_cases htr : op = "transcript"
  · simp [process_valid, valid_operations, hop, hvid, hne, hfetch, ht0, htr]
  by_cases hsum : op = "summary"
  · simp [process_valid, valid_operations, hop, hvid, hne, hfetch, ht0, htr, hsum]
    split <;> simp
  by_cases hnotes : op = "notes"
  · simp [process_valid, valid_operations, hop, hvid, hne, hfetch, ht0, htr, hsum, hnotes]
    split <;> simp
  · have haud : op = "audio" := by
      have hop2 := hop
      simp only [valid_operations, List.mem_cons, List.not_mem_nil, or_false] at hop2
      tauto
    simp [process_valid, valid_operations, hop, hvid, hne, hfetch, ht0, htr, hsum, hnotes, haud]
    split
    · simp
    · split <;> simp

/-- C4 counterexample: the pipeline accepts and proceeds past URL
resolution with the three-character identifier abc extracted from
https://youtu.be/abc, invoking the transcript fetch on it, although abc
does not have the 11-character identifier shape. -/
theorem eleven_char_shape_cex :
    (process_video
      ⟨fun _ => ⟨some "youtu.be", "/abc", ""⟩, fun _ => Except.error "no captions",
        fun _ => Except.ok "y", fun _ _ => Except.ok (), []⟩
      (some ⟨some "https://youtu.be/abc", some "transcript", none⟩)).2.1 =
      [Call.fetchTranscript "abc"]
    ∧ ("abc" : String).length ≠ 11 := by
  exact ⟨by decide, by decide⟩

/-- C4 amended: the pipeline performs no 11-character shape check; every
nonempty identifier returned by get_video_id proceeds to the transcript
fetch, and only an empty or absent identifier stops the request at URL
resolution with INVALID_URL 400. -/
theorem videoref_nonempty_accepted (env : Env) (p : Payload) (vid : String)
    (hval : (validate_request_data p ["url", "operation"]).1 = true)
    (hop : pyLower (p.operation.getD "") ∈ valid_operations)
    (hvid : get_video_id (env.parse (p.url.getD "")) = some vid) :
    (vid ≠ "" → Call.fetchTranscript vid ∈ (process_video env (some p)).2.1)
    ∧ (vid = "" → process_video env (some p) =
        (Response.error "Invalid YouTube URL format" "INVALID_URL" 400, [], env.files)) := by
  rw [process_video_valid_red env p hval]
  constructor
  · intro hne
    exact fetch_mem_process_valid env _ _ _ vid hop hvid hne
  · intro h0
    subst h0
    simp [process_valid, hop, hvid]

theorem videoref_nonempty_accepted_witness :
    Call.fetchTranscript "xy" ∈
      (process_video
        ⟨fun _ => ⟨some "youtu.be", "/xy", ""⟩, fun _ => Except.error "e",
          fun _ => Except.ok "y", fun _ _ => Except.ok (), []⟩
        (some ⟨some "https://youtu.be/xy", some "transcript", none⟩)).2.1 :=
  (videoref_nonempty_accepted
    ⟨fun _ => ⟨some "youtu.be", "/xy", ""⟩, fun _ => Except.error "e",
      fun _ => Except.ok "y", fun _ _ => Except.ok (), []⟩
    ⟨some "https://youtu.be/xy", some "transcript", none⟩ "xy"
    (by decide) (by decide) (by decide)).1 (by decide)

theorem pyLower_eq_empty_iff (s : String) : pyLower s = "" ↔ s = "" := by
  constructor
  · intro h
    have hd : s.data.map Char.toLower = [] := congrArg String.data h
    have hnil : s.data = [] := by simpa using hd
    exact String.ext hnil
  · intro h
    subst h
    rfl

/-- C10: the endpoint lowercases the operation field before the
operation-set check and dispatch, so two requests whose operation strings
lowercase to the same word are handled identically; in particular any
casing of summary is dispatched exactly like the lowercase spelling. -/
theorem operation_case_insensitive (env : Env) (u af : Option String) (s t : String)
    (h : pyLower s = pyLower t) :
    process_video env (some ⟨u, some s, af⟩) = process_video env (some ⟨u, some t, af⟩) := by
  have hem : s = "" ↔ t = "" := by
    constructor
    · intro hs
      subst hs
      exact (pyLower_eq_empty_iff t).mp (h.symm.trans rfl)
    · intro ht
      subst ht
      exact (pyLower_eq_empty_iff s).mp (h.trans rfl)
  have hft : fieldTruthy (some s) = fieldTruthy (some t) := by
    simp [fieldTruthy, hem]
  have hpred : (fun field => decide (¬ fieldTruthy ((⟨u, some s, af⟩ : Payload).get field) = true)) =
      (fun field => decide (¬ fieldTruthy ((⟨u, some t, af⟩ : Payload).get field) = true)) := by
    funext field
    simp only [Payload.get]
    split
    · rfl
    split
    · rw [hft]
    · rfl
  have hval : validate_request_data ⟨u, some s, af⟩ ["url", "operation"] =
      validate_request_data ⟨u, some t, af⟩ ["url", "operation"] := by
    simp only [validate_request_data]
    rw [hpred]
  simp only [process_video]
  rw [hval]
  cases hvt : validate_request_data ⟨u, some t, af⟩ ["url", "operation"] with
  | mk b msg =>
    cases b
    · rfl
    · show process_valid env (u.getD "") (pyLower s) af =
        process_valid env (u.getD "") (pyLower t) af
      rw [h]

theorem operation_case_insensitive_witness :
    process_video
      ⟨fun _ => ⟨some "youtu.be", "/abc12345678", ""⟩, fun _ => Except.ok [⟨"hello"⟩],
        fun _ => Except.ok "a summary", fun _ _ => Except.ok (), []⟩
      (some ⟨some "https://youtu.be/abc12345678", some "SUMMARY", none⟩) =
    process_video
      ⟨fun _ => ⟨some "youtu.be", "/abc12345678", ""⟩, fun _ => Except.ok [⟨"hello"⟩],
        fun _ => Except.ok "a summary", fun _ _ => Except.ok (), []⟩
      (some ⟨some "https://youtu.be/abc12345678", some "summary", none⟩) :=
  operation_case_insensitive
    ⟨fun _ => ⟨some "youtu.be", "/abc12345678", ""⟩, fun _ => Except.ok [⟨"hello"⟩],
      fun _ => Except.ok "a summary", fun _ _ => Except.ok (), []⟩
    (some "https://youtu.be/abc12345678") none "SUMMARY" "summary" (by decide)

/-- C1 failing input evaluated: when the generative call raises,
generate_summary returns its sentinel, that sentinel differs from the
string the router compares against, and the endpoint therefore returns a
success envelope containing the sentinel text instead of the
SUMMARY_GENERATION_FAILED 500 error envelope. -/
theorem summary_failure_not_detected :
    generate_summary (fun _ => Except.error "quota exceeded") "hello" = SUMMARY_FAILURE
    ∧ SUMMARY_FAILURE ≠ "Sorry, couldn\x27t make summary"
    ∧ (process_video
        ⟨fun _ => ⟨some "youtu.be", "/abc12345678", ""⟩, fun _ => Except.ok [⟨"hello"⟩],
          fun _ => Except.error "quota exceeded", fun _ _ => Except.ok (), []⟩
        (some ⟨some "https://youtu.be/abc12345678", some "summary", none⟩)).1 =
      Response.success "Summary generated successfully"
        (RespData.summaryData "abc12345678" SUMMARY_FAILURE) := by
  exact ⟨rfl, by decide, by decide⟩

/-- C2 failing input evaluated: with operation audio and a failing
generative call, the endpoint answers a success envelope and the audio
file is written to the audio directory, so the directory is not left
unchanged and no 500 is returned. -/
theorem audio_failure_writes_file :
    (process_video
        ⟨fun _ => ⟨some "youtu.be", "/abc12345678", ""⟩, fun _ => Except.ok [⟨"hello"⟩],
          fun _ => Except.error "quota exceeded", fun _ _ => Except.ok (), []⟩
        (some ⟨some "https://youtu.be/abc12345678", some "audio", none⟩)).1 =
      Response.success "Audio summary generated successfully"
        (RespData.audioData "abc12345678" "summary_abc12345678.mp3" SUMMARY_FAILURE)
    ∧ (process_video
        ⟨fun _ => ⟨some "youtu.be", "/abc12345678", ""⟩, fun _ => Except.ok [⟨"hello"⟩],
          fun _ => Except.error "quota exceeded", fun _ _ => Except.ok (), []⟩
        (some ⟨some "https://youtu.be/abc12345678", some "audio", none⟩)).2.2 =
      ["audio_files/summary_abc12345678.mp3"] := by
  exact ⟨by decide, by decide⟩

/-- C6 failing input evaluated: a generation failure does not reach the
500 exit; with operation notes and a failing generative call the endpoint
answers a success envelope carrying the notes sentinel text, not the
NOTES_GENERATION_FAILED 500 error the mapping promises. -/
theorem notes_failure_returns_success :
    generate_notes (fun _ => Except.error "boom") "hi there" = NOTES_FAILURE
    ∧ NOTES_FAILURE ≠ "Sorry, couldn\x27t make notes"
    ∧ (process_video
        ⟨fun _ => ⟨some "www.youtube.com", "/watch", "v=dQw4w9WgXcQ"⟩,
          fun _ => Except.ok [⟨"hi"⟩, ⟨"there"⟩], fun _ => Except.error "boom",
          fun _ _ => Except.ok (), []⟩
        (some ⟨some "https://www.youtube.com/watch?v=dQw4w9WgXcQ", some "notes", none⟩)).1 =
      Response.success "Notes generated successfully"
        (RespData.notesData "dQw4w9WgXcQ" NOTES_FAILURE) := by
  exact ⟨rfl, by decide, by decide⟩

end YtSummarizer
